import Mathlib

/-!
Shallow embedding of `src/discord-transport.js` (the `DiscordTransport`
class in its current form: string webhook validated at construction,
a bound transport method carrying a live `level` getter, and the
Set-based `reportError` peer rebroadcast).

JavaScript mutation is rendered as explicit state passing: a method that
mutates the record or the host returns the updated value alongside its
result.  Function identity (the bound transport method) is rendered as a
numeric handle.
-/

/-- JavaScript runtime values that can appear in a log record's `data`. -/
inductive JsValue where
  | str (s : String)
  | num (n : Int)
  | boolean (b : Bool)
  | nullV
  | undef
  | errObj (message : String)
  deriving DecidableEq, Repr

/-- Model of Node's `Util.inspect(value, true)`: a total, deterministic
structural rendering of a runtime value.  A string renders inside single
quotes, exactly as `util.inspect` prints it. -/
def inspect : JsValue → String
  | .str s => "'" ++ s ++ "'"
  | .num n => toString n
  | .boolean b => if b then "true" else "false"
  | .nullV => "null"
  | .undef => "undefined"
  | .errObj m => "Error: " ++ m

/-- A JavaScript `Error` object, identified by its message. -/
structure JsError where
  message : String
  deriving DecidableEq, Repr

/-- The log record handed to the transport by the host:
`{ data, level, date }`. -/
structure LogMessage where
  data : List JsValue
  level : String
  date : String
  deriving DecidableEq, Repr

/-- Identity of a transport callable (JavaScript function identity: the
bound transport method of one adapter is one fixed function object). -/
abbrev THandle := Nat

/-- The state of the host logging system (electron-log) that the adapter
reads: its transport registry — an ordered name-to-handle map with unique
keys, as the fields of a JS object — and whether the instance exposes
`logMessageWithTransports`. -/
structure Host where
  transports : List (String × THandle)
  hasLogMessageWithTransports : Bool
  deriving DecidableEq, Repr

/-- JS object property write `obj[k] = v`: an existing key keeps its
position and gets the new value; a new key is appended. -/
def setSlot {β : Type} (reg : List (String × β)) (k : String) (v : β) :
    List (String × β) :=
  if reg.any (fun p => p.1 = k) then
    reg.map (fun p => if p.1 = k then (k, v) else p)
  else
    reg ++ [(k, v)]

/-- JS object property read `obj[k]`. -/
def getSlot {β : Type} (reg : List (String × β)) (k : String) : Option β :=
  (reg.find? (fun p => p.1 = k)).map Prod.snd

/-- One step of `new Set(iterable)` construction: an element already in
the set is skipped, a fresh one is appended (JS sets keep insertion
order). -/
def insertFresh {α : Type} [DecidableEq α] (acc : List α) (x : α) : List α :=
  if x ∈ acc then acc else acc ++ [x]

/-- `Array.from(new Set(l))`: the distinct elements of `l` in first
occurrence order. -/
def jsSet {α : Type} [DecidableEq α] (l : List α) : List α :=
  l.foldl insertFresh []

/-- The constructor's options object (`§6` configuration surface).  The
current constructor reads only `webhook`, `username`, `avatar`, `thumb`,
`level` and `electronLog`; `transformFn` and `reportErrorFn` are carried
by the surface but not read. -/
structure Options where
  webhook : Option String := none
  username : Option String := none
  avatar : Option String := none
  thumb : Option String := none
  level : Option String := none
  electronLog : Option Host := none
  transformFn : Option (LogMessage → String) := none
  reportErrorFn : Option (JsError → Unit) := none

/-- The adapter instance: the fields the constructor stores.  `transport`
is the identity of the bound transport method created by
`bindTransportMethod`; `electronLog` holds the state of the attached host
(the JS reference's value at the moment an operation reads it). -/
structure Adapter where
  webhook : String
  username : Option String
  avatar : Option String
  thumb : Option String
  level : String
  transport : THandle
  electronLog : Option Host
  deriving DecidableEq, Repr

namespace DiscordTransport

/-- `this.colors[level]`: the fixed color table; an unknown level reads
as `undefined` (`none`). -/
def colors : String → Option Nat
  | "error" => some 0xF44336
  | "warn" => some 0xFFC107
  | "info" => some 0x2196F3
  | "verbose" => some 0x9C27B0
  | "debug" => some 0x4CAF50
  | "silly" => some 0x607D8B
  | "log" => some 0x333333
  | _ => none

/-- `attachTo(electronLog)`: store the host reference and register the
bound transport method under the well-known key `discord`. -/
def attachTo (a : Adapter) (h : Host) : Adapter × Host :=
  let h2 : Host := { h with transports := setSlot h.transports "discord" a.transport }
  ({ a with electronLog := some h2 }, h2)

/-- The constructor: `if (!options.webhook) throw new Error('webhook is
required.')`, then field initialization with `?? null` / `?? 'silly'`
defaults, `bindTransportMethod()` (the fresh function identity is the
`fresh` argument), and automatic `attachTo` when `options.electronLog`
is supplied.  `!options.webhook` is true for an absent and for an empty
webhook string. -/
def new (o : Options) (fresh : THandle) : Except JsError Adapter :=
  match o.webhook with
  | none => .error ⟨"webhook is required."⟩
  | some w =>
    if w = "" then .error ⟨"webhook is required."⟩
    else
      let a : Adapter :=
        { webhook := w
          username := o.username
          avatar := o.avatar
          thumb := o.thumb
          level := o.level.getD "silly"
          transport := fresh
          electronLog := none }
      match o.electronLog with
      | some h => .ok (attachTo a h).1
      | none => .ok a

/-- `getFactory()`: returns the already-bound transport method. -/
def getFactory (a : Adapter) : THandle := a.transport

/-- A runtime write to the severity threshold, `this.level = l`. -/
def setLevel (a : Adapter) (l : String) : Adapter := { a with level := l }

/-- Reading `level` through the exposed transport method: the property
defined by `bindTransportMethod` has getter `() => this.level`, so the
read goes to the adapter's current field. -/
def factoryLevel (a : Adapter) : String := a.level

/-- `message.data.pop()`: removes and returns the last element of the
data array; on an empty array it returns `undefined` and leaves the
array empty. -/
def popData (m : LogMessage) : JsValue × LogMessage :=
  match m.data.getLast? with
  | some v => (v, { m with data := m.data.dropLast })
  | none => (JsValue.undef, m)

/-- `transform(message)`: `Util.inspect(message.data.pop(), true)`.
Returns the rendered string and the mutated record. -/
def transform (m : LogMessage) : String × LogMessage :=
  let p := popData m
  (inspect p.1, p.2)

/-- One `{name, value, inline}` entry of an embed's `fields`. -/
structure EmbedField where
  name : String
  value : String
  inlined : Bool
  deriving DecidableEq, Repr

/-- The single embed of the payload. -/
structure Embed where
  description : String
  thumbnailUrl : Option String
  color : Option Nat
  fields : List EmbedField
  deriving DecidableEq, Repr

/-- The wire payload `{ username, avatar_url, embeds }`. -/
structure Payload where
  username : Option String
  avatar_url : Option String
  embeds : List Embed
  deriving DecidableEq, Repr

/-- `getPayload(message)`: builds the payload object.  The description is
computed by `transform`, which pops the last data item off the record, so
the (possibly mutated) record is returned alongside the payload. -/
def getPayload (a : Adapter) (m : LogMessage) : Payload × LogMessage :=
  let t := transform m
  ({ username := a.username
     avatar_url := a.avatar
     embeds := [
       { description := t.1
         thumbnailUrl := a.thumb
         color := colors m.level
         fields := [
           { name := "Level", value := m.level, inlined := true },
           { name := "DateTime", value := m.date, inlined := true }]}]},
   t.2)

/-- The list `Array.from(transportStack)` that `reportError` hands to
`logMessageWithTransports`: the registry's handles deduplicated by
identity (`new Set(Object.values(...))`) with this adapter's own bound
transport method deleted. -/
def dispatchList (h : Host) (self : THandle) : List THandle :=
  (jsSet (h.transports.map Prod.snd)).erase self

/-- The synthetic record `reportError` rebroadcasts:
`{ data: [error], level: 'warn' }`. -/
structure SyntheticRecord where
  data : List JsValue
  level : String
  deriving DecidableEq, Repr

/-- The observable effect of one `reportError` call: either the bare
`console.warn(error)` write, or one `logMessageWithTransports(record,
targets)` call, which invokes each handle of `targets` once with the
record. -/
inductive ReportEffect where
  | consoleWarn (e : JsError)
  | rebroadcast (record : SyntheticRecord) (targets : List THandle)
  deriving DecidableEq, Repr

/-- `reportError(error)`: `console.warn` when no host with
`logMessageWithTransports` is attached; otherwise rebroadcast a
synthetic warning record to every other registered transport. -/
def reportError (a : Adapter) (e : JsError) : ReportEffect :=
  match a.electronLog with
  | none => .consoleWarn e
  | some h =>
    if h.hasLogMessageWithTransports then
      .rebroadcast ⟨[JsValue.errObj e.message], "warn"⟩ (dispatchList h a.transport)
    else
      .consoleWarn e

/-- The state of one settled `fetch(webhook, options)` call: the promise
resolved with a response, or rejected with a transport-level error. -/
inductive FetchOutcome where
  | resolved (ok : Bool) (body : String)
  | rejected (e : JsError)
  deriving DecidableEq, Repr

/-- The error `send` constructs for a non-success response:
`new Error(\x60ElectronLogDiscord: cannot send HTTP request to
$\x7bthis.webhook\x7d\x60)`. -/
def endpointError (a : Adapter) : JsError :=
  ⟨"ElectronLogDiscord: cannot send HTTP request to " ++ a.webhook⟩

/-- The `fetch(...).then(response => ...)` stage of `send`, before the
`.catch`: resolves with `response.body` on an ok response, is rejected
with the endpoint error on a non-ok response, and passes a transport
rejection through. -/
def sendAttempt (a : Adapter) (o : FetchOutcome) : Except JsError String :=
  match o with
  | .resolved ok body => if ok then .ok body else .error (endpointError a)
  | .rejected e => .error e

/-- What the promise returned by `send` resolves to: the response body,
or the value of the `.catch` handler — the effect of the one
`reportError` call.  There is no rejected alternative: the final
`.catch` absorbs every failure of the chain. -/
inductive SendResult where
  | delivered (body : String)
  | errorReported (effect : ReportEffect)
  deriving DecidableEq, Repr

/-- `send(payload)`: the full chain
`fetch(...).then(...).catch(this.reportError.bind(this))`. -/
def send (a : Adapter) (o : FetchOutcome) : SendResult :=
  match sendAttempt a o with
  | .ok body => .delivered body
  | .error e => .errorReported (reportError a e)

/-- The errors `send` routes to `reportError` for a given outcome of the
network call. -/
def reportedErrors (a : Adapter) (o : FetchOutcome) : List JsError :=
  match sendAttempt a o with
  | .ok _ => []
  | .error e => [e]

/-- Whether an error's message mentions the endpoint `w`. -/
def referencesEndpoint (e : JsError) (w : String) : Bool :=
  decide (w.toList <:+: e.message.toList)

/-- The configuration of the spec's end-to-end example:
`{webhook: "https://x/y", username: "App"}`. -/
def appOptions : Options :=
  { webhook := some "https://x/y", username := some "App" }

/-- The adapter the constructor builds from `appOptions` (with transport
method identity 0). -/
def appAdapter : Adapter :=
  { webhook := "https://x/y", username := some "App", avatar := none,
    thumb := none, level := "silly", transport := 0, electronLog := none }

/-- The record of the spec's end-to-end example. -/
def boomMessage : LogMessage :=
  { data := [.str "boom"], level := "error", date := "2024-01-01T00:00:00.000Z" }

/-- A record with two data items, for observing repeated payload builds. -/
def twiceMessage : LogMessage :=
  { data := [.str "first", .str "second"], level := "info",
    date := "2024-01-01T00:00:00.000Z" }

/-- An adapter sharing `appAdapter`'s identity and thumbnail fields but
differing in webhook, threshold and transport identity. -/
def altAdapter : Adapter :=
  { webhook := "https://other/z", username := some "App", avatar := none,
    thumb := none, level := "warn", transport := 9, electronLog := none }

/-- A host with three registered transports: two peers, and this
adapter's own handle (5) registered under the name `custom` while an
unrelated peer sits at the name `discord`. -/
def peerHost : Host :=
  { transports := [("console", 1), ("custom", 5), ("discord", 2)],
    hasLogMessageWithTransports := true }

/-- An adapter whose bound transport method is handle 5, attached to
`peerHost`. -/
def attachedAdapter : Adapter :=
  { webhook := "https://x/y", username := none, avatar := none, thumb := none,
    level := "silly", transport := 5, electronLog := some peerHost }

/-- A custom error-report hook supplied through the options surface. -/
def hookUnit : JsError → Unit := fun _ => ()

/-- Options carrying a configured `reportErrorFn` hook. -/
def hookOptions : Options :=
  { webhook := some "https://x/y", reportErrorFn := some hookUnit }

/-- A custom render hook supplied through the options surface. -/
def customRender : LogMessage → String := fun _ => "CUSTOM"

/-- Options carrying a configured `transformFn` hook. -/
def renderOptions : Options :=
  { webhook := some "https://x/y", transformFn := some customRender }

/-- A bare host with one registered transport. -/
def plainHost : Host :=
  { transports := [("console", 1)], hasLogMessageWithTransports := true }

/-- An unattached adapter with transport method identity 7. -/
def plainAdapter : Adapter :=
  { webhook := "https://x/y", username := none, avatar := none, thumb := none,
    level := "silly", transport := 7, electronLog := none }

/-! ### Properties of the JS `Set` model -/

theorem mem_insertFresh {α : Type} [DecidableEq α] {acc : List α} {y x : α} :
    x ∈ insertFresh acc y ↔ x ∈ acc ∨ x = y := by
  unfold insertFresh
  by_cases h : y ∈ acc
  · simp only [if_pos h]
    constructor
    · exact Or.inl
    · rintro (hx | rfl)
      · exact hx
      · exact h
  · simp [if_neg h]

theorem nodup_insertFresh {α : Type} [DecidableEq α] {acc : List α}
    (h : acc.Nodup) (y : α) : (insertFresh acc y).Nodup := by
  unfold insertFresh
  by_cases hy : y ∈ acc
  · simpa [if_pos hy] using h
  · simp [if_neg hy, List.nodup_append, h, hy]

theorem mem_foldl_insertFresh {α : Type} [DecidableEq α] (l : List α) :
    ∀ (acc : List α) (x : α), x ∈ l.foldl insertFresh acc ↔ x ∈ acc ∨ x ∈ l := by
  induction l with
  | nil => intro acc x; simp
  | cons y ys ih =>
    intro acc x
    rw [List.foldl_cons, ih, mem_insertFresh, List.mem_cons]
    tauto

theorem nodup_foldl_insertFresh {α : Type} [DecidableEq α] (l : List α) :
    ∀ acc : List α, acc.Nodup → (l.foldl insertFresh acc).Nodup := by
  induction l with
  | nil => intro acc h; simpa using h
  | cons y ys ih => intro acc h; exact ih _ (nodup_insertFresh h y)

theorem mem_jsSet {α : Type} [DecidableEq α] {l : List α} {x : α} :
    x ∈ jsSet l ↔ x ∈ l := by
  unfold jsSet
  rw [mem_foldl_insertFresh]
  simp

theorem nodup_jsSet {α : Type} [DecidableEq α] (l : List α) : (jsSet l).Nodup :=
  nodup_foldl_insertFresh l [] List.nodup_nil

theorem count_dispatchList_of_ne (h : Host) (self t : THandle)
    (hmem : t ∈ h.transports.map Prod.snd) (hne : t ≠ self) :
    (dispatchList h self).count t = 1 := by
  unfold dispatchList
  rw [List.count_erase_of_ne hne]
  exact List.count_eq_one_of_mem (nodup_jsSet _) (mem_jsSet.mpr hmem)

theorem count_dispatchList_self (h : Host) (self : THandle) :
    (dispatchList h self).count self = 0 := by
  unfold dispatchList
  rw [List.count_erase_self]
  have hle := List.nodup_iff_count_le_one.mp
    (nodup_jsSet (h.transports.map Prod.snd)) self
  omega

/-! ### Properties of the registry-slot model -/

theorem setSlot_setSlot {β : Type} (reg : List (String × β)) (k : String) (v : β) :
    setSlot (setSlot reg k v) k v = setSlot reg k v := by
  unfold setSlot
  by_cases hp : reg.any (fun p => p.1 = k) = true
  · rw [if_pos hp]
    have hp2 : (reg.map (fun p => if p.1 = k then (k, v) else p)).any
        (fun p => p.1 = k) = true := by
      rw [List.any_eq_true] at hp ⊢
      obtain ⟨p, hpmem, hpk⟩ := hp
      rw [decide_eq_true_eq] at hpk
      exact ⟨(k, v), List.mem_map.mpr ⟨p, hpmem, by simp [hpk]⟩, by simp⟩
    rw [if_pos hp2, List.map_map]
    refine List.map_congr_left fun p _ => ?_
    by_cases hpk : p.1 = k <;> simp [hpk]
  · rw [if_neg hp]
    have hall : ∀ p ∈ reg, ¬(p.1 = k) := by
      intro p hpmem hpk
      exact hp (List.any_eq_true.mpr ⟨p, hpmem, decide_eq_true hpk⟩)
    have hp2 : (reg ++ [(k, v)]).any (fun p => p.1 = k) = true :=
      List.any_eq_true.mpr ⟨(k, v), by simp, by simp⟩
    rw [if_pos hp2, List.map_append]
    have h1 : reg.map (fun p => if p.1 = k then (k, v) else p) = reg :=
      (List.map_congr_left fun p hpmem => if_neg (hall p hpmem)).trans reg.map_id
    have h2 : [((k, v) : String × β)].map (fun p => if p.1 = k then (k, v) else p)
        = [(k, v)] := by simp
    rw [h1, h2]

theorem count_key_setSlot {β : Type} (reg : List (String × β)) (k : String) (v : β)
    (hk : (reg.map Prod.fst).Nodup) :
    ((setSlot reg k v).map Prod.fst).count k = 1 := by
  unfold setSlot
  by_cases hp : reg.any (fun p => p.1 = k) = true
  · rw [if_pos hp, List.map_map]
    have hkeys : reg.map (Prod.fst ∘ fun p => if p.1 = k then (k, v) else p)
        = reg.map Prod.fst := by
      refine List.map_congr_left fun p _ => ?_
      by_cases hpk : p.1 = k <;> simp [hpk]
    rw [hkeys]
    obtain ⟨p, hpmem, hpk⟩ := List.any_eq_true.mp hp
    rw [decide_eq_true_eq] at hpk
    exact List.count_eq_one_of_mem hk (List.mem_map.mpr ⟨p, hpmem, hpk⟩)
  · rw [if_neg hp, List.map_append, List.count_append]
    have hnot : k ∉ reg.map Prod.fst := by
      intro hmem
      obtain ⟨p, hpmem, hpk⟩ := List.mem_map.mp hmem
      exact hp (List.any_eq_true.mpr ⟨p, hpmem, decide_eq_true hpk⟩)
    rw [List.count_eq_zero.mpr hnot]
    simp

theorem find?_setSlot_present {β : Type} (reg : List (String × β)) (k : String) (v : β)
    (hp : reg.any (fun p => p.1 = k) = true) :
    (reg.map (fun p => if p.1 = k then (k, v) else p)).find?
      (fun p => p.1 = k) = some (k, v) := by
  induction reg with
  | nil => simp at hp
  | cons q qs ih =>
    by_cases hqk : q.1 = k
    · simp [List.find?, hqk]
    · have hp2 : qs.any (fun p => p.1 = k) = true := by
        rcases List.any_eq_true.mp hp with ⟨p, hpmem, hpk⟩
        rw [decide_eq_true_eq] at hpk
        rcases List.mem_cons.mp hpmem with rfl | hmem
        · exact absurd hpk hqk
        · exact List.any_eq_true.mpr ⟨p, hmem, decide_eq_true hpk⟩
      simp only [List.map_cons, if_neg hqk, List.find?]
      rw [decide_eq_false hqk]
      exact ih hp2

theorem find?_append_of_none {β : Type} (reg tail : List (String × β)) (k : String)
    (hall : ∀ p ∈ reg, ¬(p.1 = k)) :
    (reg ++ tail).find? (fun p => p.1 = k) = tail.find? (fun p => p.1 = k) := by
  induction reg with
  | nil => simp
  | cons q qs ih =>
    have hq : ¬(q.1 = k) := hall q (by simp)
    simp only [List.cons_append, List.find?, decide_eq_false hq]
    exact ih fun p hpmem => hall p (List.mem_cons_of_mem q hpmem)

theorem getSlot_setSlot {β : Type} (reg : List (String × β)) (k : String) (v : β) :
    getSlot (setSlot reg k v) k = some v := by
  unfold getSlot setSlot
  by_cases hp : reg.any (fun p => p.1 = k) = true
  · rw [if_pos hp, find?_setSlot_present reg k v hp]
    rfl
  · have hall : ∀ p ∈ reg, ¬(p.1 = k) := by
      intro p hpmem hpk
      exact hp (List.any_eq_true.mpr ⟨p, hpmem, decide_eq_true hpk⟩)
    rw [if_neg hp, find?_append_of_none reg [(k, v)] k hall]
    simp [List.find?]

/-! ### The claims -/

/-- C1 (amended): `send` never raises: for every outcome of the network
call the chain resolves.  On an ok response it resolves with the body and
reports nothing; on a non-success response it invokes `reportError`
exactly once with a descriptive error referencing the configured
endpoint; on a transport-level rejection it invokes `reportError`
exactly once with the underlying transport error (which need not
reference the endpoint). -/
theorem send_absorbs_every_failure (a : Adapter) (o : FetchOutcome) :
    (match o with
     | .resolved ok body =>
        if ok then
          send a o = .delivered body ∧ reportedErrors a o = []
        else
          send a o = .errorReported (reportError a (endpointError a))
          ∧ reportedErrors a o = [endpointError a]
          ∧ referencesEndpoint (endpointError a) a.webhook = true
     | .rejected e =>
        send a o = .errorReported (reportError a e)
        ∧ reportedErrors a o = [e]) := by
  cases o with
  | resolved ok body =>
    cases ok
    · refine ⟨rfl, rfl, ?_⟩
      unfold referencesEndpoint endpointError
      rw [decide_eq_true_eq]
      show a.webhook.toList <:+: _
      have hdata : ("ElectronLogDiscord: cannot send HTTP request to "
          ++ a.webhook).toList
          = "ElectronLogDiscord: cannot send HTTP request to ".toList
            ++ a.webhook.toList := by
        simp [String.toList]
      rw [hdata]
      exact (List.suffix_append _ _).isInfix
    · exact ⟨rfl, rfl⟩
  | rejected e => exact ⟨rfl, rfl⟩

/-- C1 (counterexample to the claim as stated): a transport-level
rejection hands `reportError` the underlying fetch error, whose message
does not reference the configured endpoint. -/
theorem send_reject_error_lacks_endpoint :
    reportedErrors appAdapter (.rejected ⟨"fetch failed"⟩) = [⟨"fetch failed"⟩]
    ∧ referencesEndpoint ⟨"fetch failed"⟩ appAdapter.webhook = false := by
  exact ⟨rfl, by decide⟩

/-- C2 (amended): `getPayload` is deterministic and depends only on the
adapter's identity and thumbnail fields and on the record's value: two
adapters agreeing on `username`, `avatar` and `thumb` build structurally
identical payloads (and leave the record in the same state) for the same
record, whatever their webhook, threshold, transport identity or host. -/
theorem getPayload_pure_in_identity (a b : Adapter) (m : LogMessage)
    (hu : a.username = b.username) (hv : a.avatar = b.avatar)
    (ht : a.thumb = b.thumb) :
    getPayload a m = getPayload b m := by
  simp [getPayload, hu, hv, ht]

/-- C2 (witness): two adapters sharing identity and thumbnail fields but
differing in webhook, threshold and transport identity build the same
payload for the example record. -/
theorem getPayload_pure_in_identity_witness :
    getPayload appAdapter boomMessage = getPayload altAdapter boomMessage :=
  getPayload_pure_in_identity appAdapter altAdapter boomMessage rfl rfl rfl

/-- C2 (counterexample to the claim as stated): calling `getPayload`
twice in succession with the same record yields different payloads,
because the first call popped the record's last data item. -/
theorem getPayload_twice_differs :
    (getPayload appAdapter twiceMessage).1
      ≠ (getPayload appAdapter (getPayload appAdapter twiceMessage).2).1 := by
  decide

/-- C3: when `reportError` reaches the peer-rebroadcast tier it
dispatches a synthetic warning record carrying the error to a list of
transports in which every other registered handle occurs exactly once
and this adapter's own bound transport method does not occur at all; the
computation never consults registry names, only handle identity. -/
theorem reportError_rebroadcast_excludes_self (a : Adapter) (h : Host) (e : JsError)
    (hatt : a.electronLog = some h) (hcap : h.hasLogMessageWithTransports = true)
    (t : THandle) (hmem : t ∈ h.transports.map Prod.snd) (hne : t ≠ a.transport) :
    reportError a e
      = .rebroadcast ⟨[JsValue.errObj e.message], "warn"⟩ (dispatchList h a.transport)
    ∧ (dispatchList h a.transport).count t = 1
    ∧ (dispatchList h a.transport).count a.transport = 0 := by
  refine ⟨?_, count_dispatchList_of_ne h a.transport t hmem hne,
    count_dispatchList_self h a.transport⟩
  simp [reportError, hatt, hcap]

/-- C3 (witness): attached to a host holding two peers (handles 1 and 2)
and this adapter's own handle 5 registered under the name `custom` while
a peer sits at the name `discord`, the rebroadcast reaches each peer once
and never handle 5. -/
theorem reportError_rebroadcast_excludes_self_witness :
    reportError attachedAdapter ⟨"fail"⟩
      = .rebroadcast ⟨[JsValue.errObj "fail"], "warn"⟩ (dispatchList peerHost 5)
    ∧ (dispatchList peerHost 5).count 1 = 1
    ∧ (dispatchList peerHost 5).count 5 = 0 :=
  reportError_rebroadcast_excludes_self attachedAdapter peerHost ⟨"fail"⟩
    rfl rfl 1 (by decide) (by decide)

/-- C4: construction succeeds exactly when the webhook is present and
non-empty; an absent or empty webhook makes the constructor throw
`Error('webhook is required.')` — naming the missing field — and no
adapter value is produced.  On success the adapter stores the webhook
and the defaulted threshold. -/
theorem new_requires_webhook (o : Options) (fresh : THandle) :
    (match o.webhook with
     | none => DiscordTransport.new o fresh = .error ⟨"webhook is required."⟩
     | some w =>
        if w = "" then
          DiscordTransport.new o fresh = .error ⟨"webhook is required."⟩
        else
          ∃ a, DiscordTransport.new o fresh = .ok a ∧ a.webhook = w
               ∧ a.level = o.level.getD "silly") := by
  cases ho : o.webhook with
  | none => simp [DiscordTransport.new, ho]
  | some w =>
    by_cases hw : w = ""
    · simp only [if_pos hw]
      simp [DiscordTransport.new, ho, hw]
    · simp only [if_neg hw]
      cases he : o.electronLog with
      | none =>
        refine ⟨Adapter.mk w o.username o.avatar o.thumb (o.level.getD "silly")
          fresh none, ?_, rfl, rfl⟩
        simp [DiscordTransport.new, ho, hw, he]
      | some h =>
        refine ⟨(attachTo (Adapter.mk w o.username o.avatar o.thumb
          (o.level.getD "silly") fresh none) h).1, ?_, rfl, rfl⟩
        simp [DiscordTransport.new, ho, hw, he]

/-- C5: the `level` property of the exposed transport method is a live
getter on the adapter: after any sequence of threshold writes it returns
the most recent write (or the construction-time value only when nothing
was written), while the handle itself stays the same function. -/
theorem handle_level_is_current (a : Adapter) (ws : List String) :
    factoryLevel (ws.foldl setLevel a) = ws.getLastD a.level
    ∧ getFactory (ws.foldl setLevel a) = getFactory a := by
  induction ws generalizing a with
  | nil => exact ⟨rfl, rfl⟩
  | cons w ws ih =>
    rw [List.foldl_cons, List.getLastD_cons]
    exact ih (setLevel a w)

/-- C6 (amended): failure reporting has exactly two tiers, of which
exactly one fires per call: the peer rebroadcast when a host exposing
`logMessageWithTransports` is attached, and the bare `console.warn`
write otherwise.  The construction surface's custom hooks
(`reportErrorFn`, `transformFn`) are ignored by the constructor, so no
custom-hook tier exists. -/
theorem reportError_two_tiers (o : Options) (f : Option (JsError → Unit))
    (g : Option (LogMessage → String)) (fresh : THandle) (a : Adapter) (e : JsError) :
    DiscordTransport.new { o with reportErrorFn := f, transformFn := g } fresh
      = DiscordTransport.new o fresh
    ∧ (match a.electronLog with
       | some h =>
          if h.hasLogMessageWithTransports then
            reportError a e
              = .rebroadcast ⟨[JsValue.errObj e.message], "warn"⟩
                  (dispatchList h a.transport)
          else reportError a e = .consoleWarn e
       | none => reportError a e = .consoleWarn e) := by
  refine ⟨rfl, ?_⟩
  cases he : a.electronLog with
  | none => simp [reportError, he]
  | some h =>
    by_cases hc : h.hasLogMessageWithTransports = true
    · simp [reportError, he, hc]
    · simp [reportError, he, hc]

/-- C6 (counterexample to the claim as stated): with a custom
error-report hook configured in the options, `reportError` still fires
the console tier — the hook does not replace the other tiers, it is
never consulted. -/
theorem reportError_hook_not_fired :
    hookOptions.reportErrorFn.isSome = true
    ∧ (DiscordTransport.new hookOptions 0).map (fun a => reportError a ⟨"boom"⟩)
        = .ok (.consoleWarn ⟨"boom"⟩) :=
  ⟨rfl, rfl⟩

/-- C7: the end-to-end example: the adapter built from
`{webhook: "https://x/y", username: "App"}` turns the record
`{data: ["boom"], level: "error", date: "2024-01-01T00:00:00.000Z"}`
into exactly the specified payload. -/
theorem boom_payload_example :
    DiscordTransport.new appOptions 0 = .ok appAdapter
    ∧ (getPayload appAdapter boomMessage).1
      = { username := some "App", avatar_url := none,
          embeds := [
            { description := "'boom'", thumbnailUrl := none,
              color := some 0xF44336,
              fields := [
                { name := "Level", value := "error", inlined := true },
                { name := "DateTime", value := "2024-01-01T00:00:00.000Z",
                  inlined := true }]}]} :=
  ⟨rfl, by decide⟩

/-- C8 (amended): for every record with a non-empty data sequence, the
payload's description is the default structural rendering (`inspect`) of
the last item of the data sequence — not of the whole sequence — for
every adapter, however configured; the current code consults no custom
render hook. -/
theorem description_from_last_item (a : Adapter) (m : LogMessage) (v : JsValue)
    (hv : m.data.getLast? = some v) :
    ((getPayload a m).1).embeds.map Embed.description = [inspect v] := by
  simp [getPayload, transform, popData, hv]

/-- C8 (witness): the example record's description is the rendering of
its last (only) data item. -/
theorem description_from_last_item_witness :
    ((getPayload appAdapter boomMessage).1).embeds.map Embed.description
      = [inspect (.str "boom")] :=
  description_from_last_item appAdapter boomMessage (.str "boom") rfl

/-- C8 (counterexample to the claim as stated): with a custom render
hook configured in the options, the built description is still the
default rendering of the last data item, not the hook's output. -/
theorem render_hook_not_used :
    renderOptions.transformFn.isSome = true
    ∧ (DiscordTransport.new renderOptions 0).map
        (fun a => ((getPayload a boomMessage).1).embeds.map Embed.description)
      = .ok ["'boom'"]
    ∧ customRender boomMessage = "CUSTOM"
    ∧ ("'boom'" : String) ≠ "CUSTOM" :=
  ⟨rfl, rfl, rfl, by decide⟩

/-- C9: attaching the same adapter to the same host twice is idempotent:
the second attach leaves the host unchanged, the `discord` slot holds
exactly one registration, and after either attach that registration is
the same transport handle — the one `getFactory` returns. -/
theorem attachTo_idempotent (a : Adapter) (h : Host)
    (hk : (h.transports.map Prod.fst).Nodup) :
    (attachTo (attachTo a h).1 (attachTo a h).2).2 = (attachTo a h).2
    ∧ (((attachTo a h).2).transports.map Prod.fst).count "discord" = 1
    ∧ getSlot ((attachTo a h).2).transports "discord" = some (getFactory a)
    ∧ getSlot ((attachTo (attachTo a h).1 (attachTo a h).2).2).transports "discord"
        = some (getFactory a) := by
  have hs := setSlot_setSlot h.transports "discord" a.transport
  refine ⟨?_, count_key_setSlot h.transports "discord" a.transport hk, ?_, ?_⟩
  · simp only [attachTo]
    rw [hs]
  · simp only [attachTo, getFactory]
    exact getSlot_setSlot h.transports "discord" a.transport
  · simp only [attachTo, getFactory]
    rw [hs]
    exact getSlot_setSlot h.transports "discord" a.transport

/-- C9 (witness): attaching `plainAdapter` (handle 7) twice to a host
with one other transport leaves one `discord` registration holding
handle 7, and the second attach changes nothing. -/
theorem attachTo_idempotent_witness :
    (attachTo (attachTo plainAdapter plainHost).1 (attachTo plainAdapter plainHost).2).2
      = (attachTo plainAdapter plainHost).2
    ∧ (((attachTo plainAdapter plainHost).2).transports.map Prod.fst).count "discord" = 1
    ∧ getSlot ((attachTo plainAdapter plainHost).2).transports "discord"
        = some (getFactory plainAdapter)
    ∧ getSlot ((attachTo (attachTo plainAdapter plainHost).1
        (attachTo plainAdapter plainHost).2).2).transports "discord"
        = some (getFactory plainAdapter) :=
  attachTo_idempotent plainAdapter plainHost (by decide)

/-- C10: building a payload from a record with non-empty data mutates
the record: its data sequence loses its last element (so it is one
element shorter), while `level` and `date` are unchanged. -/
theorem getPayload_mutates_record (a : Adapter) (m : LogMessage)
    (hne : m.data ≠ []) :
    ((getPayload a m).2).data = m.data.dropLast
    ∧ ((getPayload a m).2).data.length + 1 = m.data.length
    ∧ ((getPayload a m).2).level = m.level
    ∧ ((getPayload a m).2).date = m.date := by
  rcases List.eq_nil_or_concat m.data with h | ⟨l, x, h⟩
  · exact absurd h hne
  · refine ⟨?_, ?_, ?_, ?_⟩ <;>
      simp [getPayload, transform, popData, h, List.concat_eq_append,
        List.getLast?_concat, List.dropLast_concat]

/-- C10 (witness): building the payload for the two-item record drops
its second item and keeps `level` and `date`. -/
theorem getPayload_mutates_record_witness :
    ((getPayload appAdapter twiceMessage).2).data = twiceMessage.data.dropLast
    ∧ ((getPayload appAdapter twiceMessage).2).data.length + 1
        = twiceMessage.data.length
    ∧ ((getPayload appAdapter twiceMessage).2).level = twiceMessage.level
    ∧ ((getPayload appAdapter twiceMessage).2).date = twiceMessage.date :=
  getPayload_mutates_record appAdapter twiceMessage (by decide)

end DiscordTransport
